import Mathlib

/-!
Verification of the EcoPilot trip-coaching pipeline.

This file is a shallow embedding of the deterministic parts of
`src/backend/src/services/aiCoachingService.js` (feature extraction, the
rule-based recommendation generator, the efficiency-improvement estimate,
the neural scoring pipeline of `analyzeEfficiency` / `analyzeBehavior` /
`analyzeRoute`) and of the coaching route module (the `calculateTrend`
helper and the insight-writing step of the analyze-trip handler).

Modelling conventions:
* JavaScript numbers are modelled as exact rationals (`ℚ`) in the
  rule-based code paths; every claim-relevant comparison there involves
  small decimal constants that are exact in both representations.
* Where JavaScript division produces `NaN` or `±Infinity` (division by
  zero), the embedding makes the IEEE outcome explicit: an average over an
  empty list is used only in guards of the form `avg > c` with `c > 0`,
  where `NaN > c` is false in JS exactly as `0/0 = 0 > c` is false in `ℚ`;
  the zero-baseline branch of `calculateTrend` spells out the
  `±Infinity`/`NaN` comparison results as a case split.
* The TensorFlow networks are embedded as their declared architectures
  (dense layers with relu / linear / sigmoid / softmax activations) over
  `ℝ`, parameterised by weight records, since the weights themselves are
  produced by a random initialiser at startup and are not part of the
  source.  The dropout layer is the identity at inference time.
-/

namespace EcoPilot

/-- Per-trip driving-behaviour event counters (the `drivingBehavior`
object of a trip document). -/
structure DrivingBehavior where
  harshAccelerations : ℚ
  harshBraking : ℚ
  harshCornering : ℚ
  speedingEvents : ℚ
  idleTime : ℚ
  rapidLaneChanges : ℚ
deriving DecidableEq

/-- The fields of a trip document that the coaching service reads
(`tripData` in `aiCoachingService.js`).  `routeType`, `trafficLevel`,
`weatherConditions` and `temperature` flatten the nested `route`,
`traffic` and `weather` objects. -/
structure TripData where
  distance : ℚ
  duration : ℚ
  averageSpeed : ℚ
  maxSpeed : ℚ
  drivingBehavior : DrivingBehavior
  routeType : String
  trafficLevel : String
  weatherConditions : String
  temperature : ℚ
deriving DecidableEq

/-- The `potentialSavings` object carried by a recommendation. -/
structure PotentialSavings where
  fuel : ℚ
  co2 : ℚ
deriving DecidableEq

/-- A coaching recommendation as produced by `generateRecommendations`. -/
structure Recommendation where
  type : String
  priority : String
  title : String
  description : String
  tips : List String
  potentialSavings : PotentialSavings
deriving DecidableEq

/-- Average of `drivingBehavior.harshAccelerations` over the recent-trip
window (`aiCoachingService.js` lines 227-228). -/
def avgHarshAccelerations (recentTrips : List TripData) : ℚ :=
  (recentTrips.map fun trip => trip.drivingBehavior.harshAccelerations).sum /
    (recentTrips.length : ℚ)

/-- Average of `maxSpeed` over the recent-trip window (lines 249-250). -/
def avgMaxSpeed (recentTrips : List TripData) : ℚ :=
  (recentTrips.map fun trip => trip.maxSpeed).sum / (recentTrips.length : ℚ)

/-- Average of `drivingBehavior.idleTime` over the recent-trip window
(lines 271-272). -/
def avgIdleTime (recentTrips : List TripData) : ℚ :=
  (recentTrips.map fun trip => trip.drivingBehavior.idleTime).sum /
    (recentTrips.length : ℚ)

/-- The recommendation pushed when `avgHarshAccelerations > 3`
(`aiCoachingService.js` lines 230-246). -/
def accelerationRecommendation (avgHA : ℚ) : Recommendation :=
  { type := "acceleration"
    priority := "high"
    title := "Smooth Acceleration"
    description := "Reduce harsh accelerations to improve fuel efficiency by up to 15%"
    tips := ["Gradually press the accelerator pedal",
             "Anticipate traffic flow to avoid sudden stops",
             "Use cruise control on highways when possible"]
    potentialSavings := { fuel := avgHA * 0.1, co2 := avgHA * 0.25 } }

/-- The recommendation pushed when `avgMaxSpeed > 100` (lines 252-268). -/
def speedRecommendation : Recommendation :=
  { type := "speed"
    priority := "medium"
    title := "Speed Management"
    description := "Maintaining optimal speeds can significantly improve fuel efficiency"
    tips := ["Stay within speed limits",
             "Use cruise control on highways",
             "Avoid rapid speed changes"]
    potentialSavings := { fuel := 0.2, co2 := 0.5 } }

/-- The recommendation pushed when `avgIdleTime > 180` (lines 274-290). -/
def idlingRecommendation (avgIdle : ℚ) : Recommendation :=
  { type := "idling"
    priority := "medium"
    title := "Reduce Idle Time"
    description := "Turn off your engine when parked to save fuel and reduce emissions"
    tips := ["Turn off engine at long traffic lights",
             "Avoid warming up engine for extended periods",
             "Use remote start sparingly"]
    potentialSavings := { fuel := avgIdle / 60 * 0.1, co2 := avgIdle / 60 * 0.25 } }

/-- `generateRecommendations` (`aiCoachingService.js` lines 217-293),
with the recent-trip window (the result of the 7-day / limit-10 trip
query) as input.  The three `if (...) recommendations.push(...)` blocks
are modelled as sequential conditional appends, preserving evaluation
order.  For an empty window the JS averages are `NaN` and every `NaN > c`
guard is false, exactly as the `ℚ` value `0/0 = 0` fails every guard. -/
def generateRecommendations (recentTrips : List TripData) : List Recommendation :=
  let recommendations : List Recommendation := []
  let recommendations :=
    if avgHarshAccelerations recentTrips > 3 then
      recommendations ++ [accelerationRecommendation (avgHarshAccelerations recentTrips)]
    else recommendations
  let recommendations :=
    if avgMaxSpeed recentTrips > 100 then
      recommendations ++ [speedRecommendation]
    else recommendations
  let recommendations :=
    if avgIdleTime recentTrips > 180 then
      recommendations ++ [idlingRecommendation (avgIdleTime recentTrips)]
    else recommendations
  recommendations

/-- `extractEfficiencyFeatures` (`aiCoachingService.js` lines 298-311). -/
def extractEfficiencyFeatures (tripData : TripData) : List ℚ :=
  [tripData.distance / 100,
   tripData.duration / 3600,
   tripData.averageSpeed / 100,
   tripData.maxSpeed / 150,
   tripData.drivingBehavior.harshAccelerations / 10,
   tripData.drivingBehavior.harshBraking / 10,
   tripData.drivingBehavior.idleTime / 600,
   if tripData.routeType = "city" then 1 else 0,
   if tripData.routeType = "highway" then 1 else 0,
   tripData.temperature / 50]

/-- `extractBehaviorFeatures` (lines 316-327). -/
def extractBehaviorFeatures (tripData : TripData) : List ℚ :=
  [tripData.drivingBehavior.harshAccelerations / 10,
   tripData.drivingBehavior.harshBraking / 10,
   tripData.drivingBehavior.harshCornering / 10,
   tripData.drivingBehavior.speedingEvents / 10,
   tripData.drivingBehavior.idleTime / 600,
   tripData.drivingBehavior.rapidLaneChanges / 10,
   tripData.averageSpeed / 100,
   tripData.maxSpeed / 150]

/-- `extractRouteFeatures` (lines 332-341). -/
def extractRouteFeatures (tripData : TripData) : List ℚ :=
  [tripData.distance / 100,
   tripData.duration / 3600,
   if tripData.trafficLevel = "heavy" then 1 else 0,
   if tripData.trafficLevel = "congested" then 1 else 0,
   if tripData.routeType = "city" then 1 else 0,
   if tripData.weatherConditions = "rainy" then 1 else 0]

/-- `identifyEfficiencyFactors` (lines 346-370); sequential pushes
modelled as list concatenation. -/
def identifyEfficiencyFactors (tripData : TripData) : List String :=
  (if tripData.drivingBehavior.harshAccelerations > 5 then
     ["High harsh acceleration count"] else []) ++
  (if tripData.drivingBehavior.harshBraking > 3 then
     ["Frequent harsh braking"] else []) ++
  (if tripData.maxSpeed > 120 then ["High speed driving"] else []) ++
  (if tripData.drivingBehavior.idleTime > 300 then ["Excessive idling"] else []) ++
  (if tripData.routeType = "city" ∧ tripData.averageSpeed < 30 then
     ["Heavy city traffic"] else [])

/-- `calculateEfficiencyImprovement` (lines 375-393): the sequential
accumulation into the mutable `improvement` variable is written as one sum
(the conditional speed term contributes `0` when `maxSpeed ≤ 100`), capped
at 30 by `Math.min`. -/
def calculateEfficiencyImprovement (tripData : TripData) : ℚ :=
  min
    (tripData.drivingBehavior.harshAccelerations * 0.15 +
     tripData.drivingBehavior.harshBraking * 0.12 +
     (if tripData.maxSpeed > 100 then (tripData.maxSpeed - 100) * 0.01 else 0) +
     tripData.drivingBehavior.idleTime / 60 * 0.1)
    30

/-- `getBehaviorDetails` (lines 398-405), as ordered key-value pairs. -/
def getBehaviorDetails (tripData : TripData) : List (String × String) :=
  [("accelerationPattern",
    if tripData.drivingBehavior.harshAccelerations > 5 then "aggressive" else "smooth"),
   ("brakingPattern",
    if tripData.drivingBehavior.harshBraking > 3 then "harsh" else "smooth"),
   ("speedPattern", if tripData.maxSpeed > 120 then "high_speed" else "moderate"),
   ("idlingPattern",
    if tripData.drivingBehavior.idleTime > 300 then "excessive" else "minimal")]

/-- One entry of the `suggestRouteOptimizations` output (lines 410-430). -/
structure RouteOptimization where
  type : String
  description : String
  fuelSaving : ℚ
  timeSaving : ℚ
deriving DecidableEq

/-- `suggestRouteOptimizations` (lines 410-430). -/
def suggestRouteOptimizations (tripData : TripData) : List RouteOptimization :=
  (if tripData.trafficLevel = "heavy" ∨ tripData.trafficLevel = "congested" then
     [{ type := "traffic_avoidance"
        description := "Consider alternative routes to avoid heavy traffic"
        fuelSaving := 0.15, timeSaving := 0.2 }]
   else []) ++
  (if tripData.routeType = "city" ∧ tripData.distance > 20 then
     [{ type := "route_optimization"
        description := "Highway routes may be more efficient for longer distances"
        fuelSaving := 0.1, timeSaving := 0.15 }]
   else [])

/-- `findAlternativeRoutes` (lines 435-439): an unimplemented stub that
always returns the empty list. -/
def findAlternativeRoutes (_tripData : TripData) : List String := []

/-- Trend classification values returned by the `calculateTrend` helper of
the coaching routes module. -/
inductive Trend where
  | improving
  | declining
  | stable
deriving DecidableEq

/-- The `firstAvg` value of `calculateTrend`: mean of
`values.slice(0, Math.floor(values.length / 2))`. -/
def firstHalfAvg (values : List ℚ) : ℚ :=
  (values.take (values.length / 2)).sum / ((values.take (values.length / 2)).length : ℚ)

/-- The `secondAvg` value of `calculateTrend`: mean of
`values.slice(Math.floor(values.length / 2))`. -/
def secondHalfAvg (values : List ℚ) : ℚ :=
  (values.drop (values.length / 2)).sum / ((values.drop (values.length / 2)).length : ℚ)

/-- `calculateTrend` from the coaching routes module (lines 571-585 of the
route file).  The JS body computes
`change = ((secondAvg - firstAvg) / firstAvg) * 100` unconditionally; when
`firstAvg` is `0` that float division yields `+Infinity` (second average
positive, so `change > 5` holds), `-Infinity` (second average negative, so
`change < -5` holds) or `NaN` (second average zero, so both comparisons are
false).  The `firstHalfAvg values = 0` branch below spells out exactly
those three IEEE outcomes; the non-zero branch is the exact rational
computation. -/
def calculateTrend (values : List ℚ) : Trend :=
  if values.length < 2 then .stable
  else if firstHalfAvg values = 0 then
    if secondHalfAvg values > 0 then .improving
    else if secondHalfAvg values < 0 then .declining
    else .stable
  else
    let change := ((secondHalfAvg values - firstHalfAvg values) / firstHalfAvg values) * 100
    if change > 5 then .improving
    else if change < -5 then .declining
    else .stable

/-- An insight record as written onto a trip by the analyze-trip handler
(`trip.insights = analysis.recommendations.map(...)`, route file lines
67-75); `timestamp` stands for the `new Date()` value. -/
structure Insight where
  type : String
  message : String
  impact : String
  fuelSavings : ℚ
  co2Savings : ℚ
  timestamp : ℕ
deriving DecidableEq

/-- The persisted trip document as far as the analyze-trip handler touches
it: its stored insights plus the fields the handler leaves alone. -/
structure TripRecord where
  ecoScore : ℚ
  data : TripData
  insights : List Insight
deriving DecidableEq

/-- The per-recommendation mapping of the analyze-trip handler (route file
lines 67-75). -/
def recToInsight (now : ℕ) (rec : Recommendation) : Insight :=
  { type := rec.type
    message := rec.description
    impact := if rec.potentialSavings.fuel > 0 then "positive" else "negative"
    fuelSavings := rec.potentialSavings.fuel
    co2Savings := rec.potentialSavings.co2
    timestamp := now }

/-- The insight-writing step of the analyze-trip handler (route file lines
66-76): `trip.insights = analysis.recommendations.map(...)` followed by
`trip.save()`. -/
def applyAnalysisInsights (now : ℕ) (trip : TripRecord)
    (recommendations : List Recommendation) : TripRecord :=
  { trip with insights := recommendations.map (recToInsight now) }

/-- A concrete trip whose one-trip window has average harsh accelerations
5, average max speed 80 and average idle time 60. -/
def exampleTrip : TripData :=
  { distance := 12
    duration := 1800
    averageSpeed := 40
    maxSpeed := 80
    drivingBehavior :=
      { harshAccelerations := 5, harshBraking := 1, harshCornering := 0
        speedingEvents := 0, idleTime := 60, rapidLaneChanges := 0 }
    routeType := "city"
    trafficLevel := "light"
    weatherConditions := "clear"
    temperature := 20 }

/-- A concrete calm trip breaching none of the recommendation
thresholds. -/
def calmTrip : TripData :=
  { distance := 8
    duration := 900
    averageSpeed := 32
    maxSpeed := 50
    drivingBehavior :=
      { harshAccelerations := 0, harshBraking := 0, harshCornering := 0
        speedingEvents := 0, idleTime := 0, rapidLaneChanges := 0 }
    routeType := "city"
    trafficLevel := "light"
    weatherConditions := "clear"
    temperature := 18 }

/-- A concrete trip breaching the acceleration and idling thresholds. -/
def savingsTrip : TripData :=
  { distance := 25
    duration := 3000
    averageSpeed := 45
    maxSpeed := 80
    drivingBehavior :=
      { harshAccelerations := 5, harshBraking := 2, harshCornering := 0
        speedingEvents := 0, idleTime := 240, rapidLaneChanges := 0 }
    routeType := "mixed"
    trafficLevel := "moderate"
    weatherConditions := "clear"
    temperature := 15 }

/-- A concrete trip whose distance exceeds the 100 km normalisation
divisor. -/
def outlierTrip : TripData :=
  { distance := 250
    duration := 9000
    averageSpeed := 100
    maxSpeed := 130
    drivingBehavior :=
      { harshAccelerations := 2, harshBraking := 1, harshCornering := 0
        speedingEvents := 1, idleTime := 120, rapidLaneChanges := 0 }
    routeType := "highway"
    trafficLevel := "light"
    weatherConditions := "clear"
    temperature := 25 }

/-- An insight already stored on a trip before a later re-analysis. -/
def oldInsight : Insight :=
  { type := "idling"
    message := "Turn off your engine when parked to save fuel and reduce emissions"
    impact := "positive"
    fuelSavings := 1
    co2Savings := 2
    timestamp := 3 }

/-- A persisted trip carrying one previously recorded insight. -/
def storedTrip : TripRecord :=
  { ecoScore := 82, data := calmTrip, insights := [oldInsight] }

/-- The `relu` activation of the hidden layers. -/
def relu (t : ℝ) : ℝ := max t 0

/-- The `sigmoid` activation of the route model's output layer. -/
noncomputable def sigmoid (t : ℝ) : ℝ := 1 / (1 + Real.exp (-t))

/-- The `softmax` activation of the behaviour model's output layer. -/
noncomputable def softmax {n : ℕ} (z : Fin n → ℝ) : Fin n → ℝ :=
  fun i => Real.exp (z i) / ∑ j, Real.exp (z j)

/-- A fully connected (`tf.layers.dense`) layer before activation. -/
noncomputable def dense {m n : ℕ} (W : Fin n → Fin m → ℝ) (b : Fin n → ℝ)
    (x : Fin m → ℝ) : Fin n → ℝ :=
  fun j => (∑ i, W j i * x i) + b j

/-- Parameters of the efficiency model (`loadEfficiencyModel`, lines
33-57): dense 10→64 relu, dropout, dense 64→32 relu, dense 32→1 linear.
The weight values are produced by the framework's random initialiser at
startup, so only the architecture is fixed by the source and the weights
are a parameter of the embedding. -/
structure EfficiencyWeights where
  W1 : Fin 64 → Fin 10 → ℝ
  b1 : Fin 64 → ℝ
  W2 : Fin 32 → Fin 64 → ℝ
  b2 : Fin 32 → ℝ
  W3 : Fin 1 → Fin 32 → ℝ
  b3 : Fin 1 → ℝ

/-- Parameters of the behaviour model (`loadBehaviorModel`, lines 62-83):
dense 8→32 relu, dense 32→16 relu, dense 16→4 softmax. -/
structure BehaviorWeights where
  W1 : Fin 32 → Fin 8 → ℝ
  b1 : Fin 32 → ℝ
  W2 : Fin 16 → Fin 32 → ℝ
  b2 : Fin 16 → ℝ
  W3 : Fin 4 → Fin 16 → ℝ
  b3 : Fin 4 → ℝ

/-- Parameters of the route model (`loadRouteOptimizationModel`, lines
88-109): dense 6→24 relu, dense 24→12 relu, dense 12→1 sigmoid. -/
structure RouteWeights where
  W1 : Fin 24 → Fin 6 → ℝ
  b1 : Fin 24 → ℝ
  W2 : Fin 12 → Fin 24 → ℝ
  b2 : Fin 12 → ℝ
  W3 : Fin 1 → Fin 12 → ℝ
  b3 : Fin 1 → ℝ

/-- The efficiency model's forward pass; the dropout layer is the
identity at inference time and the output activation is linear
(unbounded). -/
noncomputable def efficiencyNet (w : EfficiencyWeights) (x : Fin 10 → ℝ) : ℝ :=
  dense w.W3 w.b3
    (fun j => relu (dense w.W2 w.b2 (fun i => relu (dense w.W1 w.b1 x i)) j)) 0

/-- The behaviour model's pre-softmax logits. -/
noncomputable def behaviorLogits (w : BehaviorWeights) (x : Fin 8 → ℝ) : Fin 4 → ℝ :=
  dense w.W3 w.b3
    (fun j => relu (dense w.W2 w.b2 (fun i => relu (dense w.W1 w.b1 x i)) j))

/-- The behaviour model's forward pass (softmax output, the
`behaviorScores` array of `analyzeBehavior`). -/
noncomputable def behaviorScores (w : BehaviorWeights) (x : Fin 8 → ℝ) : Fin 4 → ℝ :=
  softmax (behaviorLogits w x)

/-- The route model's forward pass (sigmoid output). -/
noncomputable def routeNet (w : RouteWeights) (x : Fin 6 → ℝ) : ℝ :=
  sigmoid (dense w.W3 w.b3
    (fun j => relu (dense w.W2 w.b2 (fun i => relu (dense w.W1 w.b1 x i)) j)) 0)

/-- The value `Math.max(...behaviorScores)` over the four outputs
(`analyzeBehavior`, line 176). -/
noncomputable def behaviorMaxScore (s : Fin 4 → ℝ) : ℝ :=
  max (max (s 0) (s 1)) (max (s 2) (s 3))

/-- `behaviorScores.indexOf(Math.max(...behaviorScores))`: the first
index attaining the maximum (`analyzeBehavior`, line 176). -/
noncomputable def behaviorMaxIndex (s : Fin 4 → ℝ) : Fin 4 :=
  if s 0 = behaviorMaxScore s then 0
  else if s 1 = behaviorMaxScore s then 1
  else if s 2 = behaviorMaxScore s then 2
  else 3

/-- The `behaviorTypes` array of `analyzeBehavior` (line 175). -/
def behaviorTypes : List String :=
  ["eco_friendly", "moderate", "aggressive", "very_aggressive"]

/-- Modelled from the spec: the TensorFlow layers reject a feature vector
whose length differs from the model's declared `inputShape` — the spec's
`InvalidFeatureVector` condition; the shape check itself is library
behaviour, not repository code, so its failure condition is taken from
the spec's words.  A well-shaped vector is scored by the network's
forward pass. -/
noncomputable def predictModel {α : Type} (inputShape : ℕ)
    (net : (Fin inputShape → ℝ) → α) (features : List ℝ) : Except String α :=
  if h : features.length = inputShape then
    Except.ok (net fun i => features.get (Fin.cast h.symm i))
  else Except.error "InvalidFeatureVector"

/-- The result object of `analyzeEfficiency`. -/
structure EfficiencyResult where
  score : ℤ
  factors : List String
  improvement : ℚ
deriving DecidableEq

/-- The result object of `analyzeBehavior`. -/
structure BehaviorResult where
  type : String
  confidence : ℝ
  details : List (String × String)

/-- The result object of `analyzeRoute`. -/
structure RouteResult where
  efficiency : ℤ
  optimization : List RouteOptimization
  alternatives : List String
deriving DecidableEq

/-- The rational feature vectors cast to the reals fed to a network. -/
noncomputable def toRealFeatures (features : List ℚ) : List ℝ :=
  features.map (fun q => (q : ℝ))

/-- The try-body and catch-fallback of `analyzeEfficiency` (lines
137-159), with the feature vector as an explicit argument: a scoring
failure is absorbed into the neutral default (score 0, no factors,
improvement 0) instead of being propagated. -/
noncomputable def analyzeEfficiencyFrom (w : EfficiencyWeights) (tripData : TripData)
    (features : List ℝ) : EfficiencyResult :=
  match predictModel 10 (efficiencyNet w) features with
  | Except.ok y =>
      { score := round (y * 100)
        factors := identifyEfficiencyFactors tripData
        improvement := calculateEfficiencyImprovement tripData }
  | Except.error _ => { score := 0, factors := [], improvement := 0 }

/-- `analyzeEfficiency` (lines 137-159). -/
noncomputable def analyzeEfficiency (w : EfficiencyWeights) (tripData : TripData) :
    EfficiencyResult :=
  analyzeEfficiencyFrom w tripData (toRealFeatures (extractEfficiencyFeatures tripData))

/-- The try-body and catch-fallback of `analyzeBehavior` (lines 164-187):
a scoring failure is absorbed into the neutral default (category
moderate, confidence 0.5, empty details). -/
noncomputable def analyzeBehaviorFrom (w : BehaviorWeights) (tripData : TripData)
    (features : List ℝ) : BehaviorResult :=
  match predictModel 8 (behaviorScores w) features with
  | Except.ok s =>
      { type := behaviorTypes.getD (behaviorMaxIndex s).val ""
        confidence := s (behaviorMaxIndex s)
        details := getBehaviorDetails tripData }
  | Except.error _ => { type := "moderate", confidence := 0.5, details := [] }

/-- `analyzeBehavior` (lines 164-187). -/
noncomputable def analyzeBehavior (w : BehaviorWeights) (tripData : TripData) :
    BehaviorResult :=
  analyzeBehaviorFrom w tripData (toRealFeatures (extractBehaviorFeatures tripData))

/-- The try-body and catch-fallback of `analyzeRoute` (lines 192-212): a
scoring failure is absorbed into the neutral default (efficiency 50, no
optimizations, no alternatives). -/
noncomputable def analyzeRouteFrom (w : RouteWeights) (tripData : TripData)
    (features : List ℝ) : RouteResult :=
  match predictModel 6 (routeNet w) features with
  | Except.ok y =>
      { efficiency := round (y * 100)
        optimization := suggestRouteOptimizations tripData
        alternatives := findAlternativeRoutes tripData }
  | Except.error _ => { efficiency := 50, optimization := [], alternatives := [] }

/-- `analyzeRoute` (lines 192-212). -/
noncomputable def analyzeRoute (w : RouteWeights) (tripData : TripData) : RouteResult :=
  analyzeRouteFrom w tripData (toRealFeatures (extractRouteFeatures tripData))

/-- A concrete admissible parameter setting of the efficiency
architecture: all kernels and hidden biases zero, output bias 2. -/
noncomputable def zeroEffWeights : EfficiencyWeights :=
  { W1 := fun _ _ => 0, b1 := fun _ => 0, W2 := fun _ _ => 0, b2 := fun _ => 0,
    W3 := fun _ _ => 0, b3 := fun _ => 2 }

/-- All-zero parameters of the behaviour architecture. -/
noncomputable def zeroBehaviorWeights : BehaviorWeights :=
  { W1 := fun _ _ => 0, b1 := fun _ => 0, W2 := fun _ _ => 0, b2 := fun _ => 0,
    W3 := fun _ _ => 0, b3 := fun _ => 0 }

/-- All-zero parameters of the route architecture. -/
noncomputable def zeroRouteWeights : RouteWeights :=
  { W1 := fun _ _ => 0, b1 := fun _ => 0, W2 := fun _ _ => 0, b2 := fun _ => 0,
    W3 := fun _ _ => 0, b3 := fun _ => 0 }

/-- Helper: `generateRecommendations` is the concatenation of the three
conditional singleton blocks, in evaluation order. -/
theorem generateRecommendations_eq_concat (recentTrips : List TripData) :
    generateRecommendations recentTrips =
      (if avgHarshAccelerations recentTrips > 3 then
         [accelerationRecommendation (avgHarshAccelerations recentTrips)] else []) ++
      (if avgMaxSpeed recentTrips > 100 then [speedRecommendation] else []) ++
      (if avgIdleTime recentTrips > 180 then
         [idlingRecommendation (avgIdleTime recentTrips)] else []) := by
  unfold generateRecommendations
  split_ifs <;> simp

/-- Helper: every member of the generated recommendation list is one of
the three fixed records. -/
theorem mem_generateRecommendations (recentTrips : List TripData)
    (rec : Recommendation) (hrec : rec ∈ generateRecommendations recentTrips) :
    rec = accelerationRecommendation (avgHarshAccelerations recentTrips) ∨
    rec = speedRecommendation ∨
    rec = idlingRecommendation (avgIdleTime recentTrips) := by
  rw [generateRecommendations_eq_concat] at hrec
  simp only [List.mem_append] at hrec
  rcases hrec with (h | h) | h <;> split_ifs at h <;> simp at h <;> tauto

/-- C1: for every recent-trip window, `generateRecommendations` evaluates
acceleration, speed and idling in that fixed order, emits exactly one
recommendation per breached threshold (acceleration with priority high and
title Smooth Acceleration iff the average harsh accelerations exceed 3,
speed with priority medium and title Speed Management iff the average max
speed exceeds 100, idling with priority medium and title Reduce Idle Time
iff the average idle time exceeds 180), never re-sorts the output by
priority, and on the concrete window with averages (5, 80, 60) emits
exactly the one high-priority acceleration recommendation. -/
theorem generateRecommendations_fixed_order (recentTrips : List TripData) :
    ((generateRecommendations recentTrips).map (fun rec => rec.type) =
      (if avgHarshAccelerations recentTrips > 3 then ["acceleration"] else []) ++
      (if avgMaxSpeed recentTrips > 100 then ["speed"] else []) ++
      (if avgIdleTime recentTrips > 180 then ["idling"] else [])) ∧
    (∀ rec ∈ generateRecommendations recentTrips,
      (rec.type = "acceleration" →
        rec.priority = "high" ∧ rec.title = "Smooth Acceleration") ∧
      (rec.type = "speed" →
        rec.priority = "medium" ∧ rec.title = "Speed Management") ∧
      (rec.type = "idling" →
        rec.priority = "medium" ∧ rec.title = "Reduce Idle Time")) ∧
    (generateRecommendations [exampleTrip]).map (fun rec => (rec.type, rec.priority)) =
      [("acceleration", "high")] := by
  refine ⟨?_, ?_, ?_⟩
  · rw [generateRecommendations_eq_concat]
    split_ifs <;>
      simp [accelerationRecommendation, speedRecommendation, idlingRecommendation]
  · intro rec hrec
    rcases mem_generateRecommendations recentTrips rec hrec with rfl | rfl | rfl
    · exact ⟨fun _ => ⟨rfl, rfl⟩,
        fun h => absurd h (show ¬"acceleration" = "speed" by decide),
        fun h => absurd h (show ¬"acceleration" = "idling" by decide)⟩
    · exact ⟨fun h => absurd h (show ¬"speed" = "acceleration" by decide),
        fun _ => ⟨rfl, rfl⟩,
        fun h => absurd h (show ¬"speed" = "idling" by decide)⟩
    · exact ⟨fun h => absurd h (show ¬"idling" = "acceleration" by decide),
        fun h => absurd h (show ¬"idling" = "speed" by decide),
        fun _ => ⟨rfl, rfl⟩⟩
  · rw [generateRecommendations_eq_concat]
    norm_num [avgHarshAccelerations, avgMaxSpeed, avgIdleTime, exampleTrip,
      accelerationRecommendation]

/-- Witness for C1 at the concrete one-trip window with averages
(5, 80, 60). -/
theorem generateRecommendations_fixed_order_witness :
    (generateRecommendations [exampleTrip]).map (fun rec => (rec.type, rec.priority)) =
      [("acceleration", "high")] :=
  (generateRecommendations_fixed_order [exampleTrip]).2.2

/-- C2: an empty recent-trip window produces the empty recommendation
list; the embedding is a total function, so no error is possible, and the
`0/0` averages fail every threshold guard exactly as the JS `NaN`
averages do. -/
theorem generateRecommendations_empty :
    generateRecommendations ([] : List TripData) = [] := by
  rw [generateRecommendations_eq_concat]
  norm_num [avgHarshAccelerations, avgMaxSpeed, avgIdleTime]

/-- C3: `calculateTrend` returns stable on fewer than 2 values; otherwise,
when the first-half mean is non-zero, it classifies the percent change
between the floor-midpoint half means as improving (> 5), declining
(< -5) or stable; and the four concrete examples of the spec hold. -/
theorem calculateTrend_spec (values : List ℚ) :
    (values.length < 2 → calculateTrend values = Trend.stable) ∧
    (∀ x : ℚ, calculateTrend [x] = Trend.stable) ∧
    (2 ≤ values.length → firstHalfAvg values ≠ 0 →
      calculateTrend values =
        (if (secondHalfAvg values - firstHalfAvg values) / firstHalfAvg values * 100 > 5 then
           Trend.improving
         else if (secondHalfAvg values - firstHalfAvg values) / firstHalfAvg values * 100 < -5
           then Trend.declining
         else Trend.stable)) ∧
    calculateTrend [1, 1, 1, 1] = Trend.stable ∧
    calculateTrend [1, 1, 10, 10] = Trend.improving ∧
    calculateTrend [10, 10, 1, 1] = Trend.declining := by
  refine ⟨fun h => ?_, fun x => ?_, fun h2 h0 => ?_, ?_, ?_, ?_⟩
  · unfold calculateTrend
    rw [if_pos h]
  · norm_num [calculateTrend]
  · unfold calculateTrend
    rw [if_neg (by omega), if_neg h0]
  · norm_num [calculateTrend, firstHalfAvg, secondHalfAvg]
  · norm_num [calculateTrend, firstHalfAvg, secondHalfAvg]
  · norm_num [calculateTrend, firstHalfAvg, secondHalfAvg]

/-- Witness for C3 at the concrete sequence [2, 2, 3, 3] (percent change
50 > 5, hence improving). -/
theorem calculateTrend_spec_witness :
    2 ≤ ([2, 2, 3, 3] : List ℚ).length ∧ firstHalfAvg [2, 2, 3, 3] ≠ 0 ∧
    calculateTrend [2, 2, 3, 3] = Trend.improving := by
  have h := (calculateTrend_spec [2, 2, 3, 3]).2.2.1 (by norm_num)
    (by norm_num [firstHalfAvg])
  refine ⟨by norm_num, by norm_num [firstHalfAvg], ?_⟩
  rw [h]
  norm_num [firstHalfAvg, secondHalfAvg]

/-- Counterexample to C4: on [0, 1] the first-half mean is 0, yet
`calculateTrend` neither fails nor returns stable — following the IEEE
semantics of the JS division it returns improving. -/
theorem calculateTrend_zero_baseline_cex :
    firstHalfAvg [(0 : ℚ), 1] = 0 ∧
    calculateTrend [(0 : ℚ), 1] = Trend.improving ∧
    Trend.improving ≠ Trend.stable :=
  ⟨by norm_num [firstHalfAvg],
   by norm_num [calculateTrend, firstHalfAvg, secondHalfAvg],
   by decide⟩

/-- C4 amended: on a window of at least 2 values whose first-half mean is
0, `calculateTrend` does not fail and does not special-case to stable; the
JS division by zero makes it return improving when the second-half mean is
positive, declining when negative and stable when zero. -/
theorem calculateTrend_zero_baseline (values : List ℚ) (h2 : 2 ≤ values.length)
    (h0 : firstHalfAvg values = 0) :
    calculateTrend values =
      (if secondHalfAvg values > 0 then Trend.improving
       else if secondHalfAvg values < 0 then Trend.declining
       else Trend.stable) := by
  unfold calculateTrend
  rw [if_neg (by omega), if_pos h0]

/-- Witness for the amended C4 at the concrete sequence [0, 1]. -/
theorem calculateTrend_zero_baseline_witness :
    2 ≤ ([(0 : ℚ), 1] : List ℚ).length ∧ firstHalfAvg [(0 : ℚ), 1] = 0 ∧
    calculateTrend [(0 : ℚ), 1] = Trend.improving := by
  have h := calculateTrend_zero_baseline [(0 : ℚ), 1] (by norm_num)
    (by norm_num [firstHalfAvg])
  exact ⟨by norm_num, by norm_num [firstHalfAvg], by rw [h]; norm_num [secondHalfAvg]⟩

/-- C7: the acceleration recommendation carries fuel savings
`avgHarshAccelerations * 0.1` and co2 savings
`avgHarshAccelerations * 0.25`, and the idling recommendation's savings
scale linearly with the minutes of average idle time
(`avgIdleTime / 60 * 0.1` fuel, `avgIdleTime / 60 * 0.25` co2). -/
theorem recommendation_savings_linear (recentTrips : List TripData) :
    (avgHarshAccelerations recentTrips > 3 →
      ((generateRecommendations recentTrips).filter
          (fun rec => rec.type == "acceleration")).map
        (fun rec => rec.potentialSavings) =
        [{ fuel := avgHarshAccelerations recentTrips * 0.1,
           co2 := avgHarshAccelerations recentTrips * 0.25 }]) ∧
    (avgIdleTime recentTrips > 180 →
      ((generateRecommendations recentTrips).filter
          (fun rec => rec.type == "idling")).map
        (fun rec => rec.potentialSavings) =
        [{ fuel := avgIdleTime recentTrips / 60 * 0.1,
           co2 := avgIdleTime recentTrips / 60 * 0.25 }]) := by
  rw [generateRecommendations_eq_concat]
  constructor
  · intro h
    rw [if_pos h]
    split_ifs <;>
      simp [accelerationRecommendation, speedRecommendation, idlingRecommendation]
  · intro h
    rw [if_pos h]
    split_ifs <;>
      simp [accelerationRecommendation, speedRecommendation, idlingRecommendation]

/-- Witness for C7 at a one-trip window with 5 harsh accelerations. -/
theorem recommendation_savings_linear_witness :
    avgHarshAccelerations [savingsTrip] > 3 ∧
    ((generateRecommendations [savingsTrip]).filter
        (fun rec => rec.type == "acceleration")).map
      (fun rec => rec.potentialSavings) =
      [{ fuel := avgHarshAccelerations [savingsTrip] * 0.1,
         co2 := avgHarshAccelerations [savingsTrip] * 0.25 }] :=
  ⟨by norm_num [avgHarshAccelerations, savingsTrip],
   (recommendation_savings_linear [savingsTrip]).1
     (by norm_num [avgHarshAccelerations, savingsTrip])⟩

/-- C8: the efficiency feature extractor returns exactly the 10
normalized components in the declared order, and does not clamp values
exceeding 1 (a distance above 100 km yields a first component above 1). -/
theorem extractEfficiencyFeatures_spec (tripData : TripData) :
    extractEfficiencyFeatures tripData =
      [tripData.distance / 100, tripData.duration / 3600, tripData.averageSpeed / 100,
       tripData.maxSpeed / 150, tripData.drivingBehavior.harshAccelerations / 10,
       tripData.drivingBehavior.harshBraking / 10, tripData.drivingBehavior.idleTime / 600,
       if tripData.routeType = "city" then 1 else 0,
       if tripData.routeType = "highway" then 1 else 0,
       tripData.temperature / 50] ∧
    (extractEfficiencyFeatures tripData).length = 10 ∧
    (100 < tripData.distance → 1 < (extractEfficiencyFeatures tripData).headI) := by
  refine ⟨rfl, rfl, fun h => ?_⟩
  show 1 < tripData.distance / 100
  rw [lt_div_iff₀ (by norm_num : (0 : ℚ) < 100)]
  linarith

/-- Witness for C8 at a 250 km trip: the unclamped first component is
2.5. -/
theorem extractEfficiencyFeatures_spec_witness :
    100 < outlierTrip.distance ∧ 1 < (extractEfficiencyFeatures outlierTrip).headI :=
  ⟨by norm_num [outlierTrip],
   (extractEfficiencyFeatures_spec outlierTrip).2.2 (by norm_num [outlierTrip])⟩

/-- Counterexample to C9: re-analysing a stored trip does not append to
its insights — the handler assigns `trip.insights = ...`, so a previously
recorded insight is discarded (here a calm window produces no
recommendations and the stored insight vanishes entirely). -/
theorem insights_not_append_only_cex :
    storedTrip.insights = [oldInsight] ∧
    (applyAnalysisInsights 7 storedTrip (generateRecommendations [calmTrip])).insights
      = [] ∧
    oldInsight ∉
      (applyAnalysisInsights 7 storedTrip (generateRecommendations [calmTrip])).insights := by
  have h : generateRecommendations [calmTrip] = [] := by
    rw [generateRecommendations_eq_concat]
    norm_num [avgHarshAccelerations, avgMaxSpeed, avgIdleTime, calmTrip]
  refine ⟨rfl, ?_, ?_⟩ <;> simp [applyAnalysisInsights, h]

/-- C9 amended: the analyze-trip handler replaces the stored insights
with the insight records derived from the fresh recommendations
(discarding any previously recorded insights) and leaves every other trip
field unchanged. -/
theorem applyAnalysisInsights_frame (now : ℕ) (trip : TripRecord)
    (recommendations : List Recommendation) :
    (applyAnalysisInsights now trip recommendations).ecoScore = trip.ecoScore ∧
    (applyAnalysisInsights now trip recommendations).data = trip.data ∧
    (applyAnalysisInsights now trip recommendations).insights =
      recommendations.map (recToInsight now) :=
  ⟨rfl, rfl, rfl⟩

/-- C10: with non-negative behaviour counts the capped efficiency
improvement estimate lies in [0, 30]. -/
theorem calculateEfficiencyImprovement_bounds (tripData : TripData)
    (hA : 0 ≤ tripData.drivingBehavior.harshAccelerations)
    (hB : 0 ≤ tripData.drivingBehavior.harshBraking)
    (hI : 0 ≤ tripData.drivingBehavior.idleTime) :
    0 ≤ calculateEfficiencyImprovement tripData ∧
    calculateEfficiencyImprovement tripData ≤ 30 := by
  unfold calculateEfficiencyImprovement
  refine ⟨le_min ?_ (by norm_num), min_le_right _ _⟩
  have hspeed :
      (0 : ℚ) ≤ if tripData.maxSpeed > 100 then (tripData.maxSpeed - 100) * 0.01 else 0 := by
    split_ifs with h
    · nlinarith
    · exact le_refl 0
  nlinarith


/-- Helper: the sigmoid output lies strictly between 0 and 1. -/
theorem sigmoid_mem (t : ℝ) : 0 < sigmoid t ∧ sigmoid t < 1 := by
  have h : 0 < Real.exp (-t) := Real.exp_pos _
  constructor
  · unfold sigmoid; positivity
  · unfold sigmoid
    rw [div_lt_one (by linarith)]
    linarith

/-- Helper: every softmax component lies in [0, 1]. -/
theorem softmax_mem {n : ℕ} (z : Fin n → ℝ) (i : Fin n) :
    0 ≤ softmax z i ∧ softmax z i ≤ 1 := by
  have hne : Nonempty (Fin n) := ⟨i⟩
  have hS : 0 < ∑ j, Real.exp (z j) :=
    Finset.sum_pos (fun j _ => Real.exp_pos _) Finset.univ_nonempty
  constructor
  · exact div_nonneg (Real.exp_pos _).le hS.le
  · simp only [softmax]
    rw [div_le_one hS]
    exact Finset.single_le_sum (fun j _ => (Real.exp_pos (z j)).le) (Finset.mem_univ i)

/-- Helper: the route network's raw output lies strictly between 0
and 1. -/
theorem routeNet_mem (w : RouteWeights) (x : Fin 6 → ℝ) :
    0 < routeNet w x ∧ routeNet w x < 1 := by
  unfold routeNet
  exact sigmoid_mem _

/-- Helper: `Math.round` of 100 times a value in (0, 1) lies in
[0, 100]. -/
theorem round_mul_100_mem {t : ℝ} (h0 : 0 < t) (h1 : t < 1) :
    0 ≤ round (t * 100) ∧ round (t * 100) ≤ 100 := by
  rw [round_eq]
  constructor
  · exact Int.le_floor.mpr (by push_cast; linarith)
  · have hlt : ⌊t * 100 + 1 / 2⌋ < 101 := Int.floor_lt.mpr (by push_cast; linarith)
    omega

/-- Helper: the reported behaviour confidence is one of the softmax
components, hence in [0, 1]. -/
theorem behaviorConfidence_mem (w : BehaviorWeights) (x : Fin 8 → ℝ) :
    0 ≤ behaviorScores w x (behaviorMaxIndex (behaviorScores w x)) ∧
    behaviorScores w x (behaviorMaxIndex (behaviorScores w x)) ≤ 1 := by
  unfold behaviorScores
  exact softmax_mem _ _

/-- Helper: with all-zero kernels the efficiency network outputs its
output-layer bias, here 2, for every input. -/
theorem efficiencyNet_zeroEffWeights (x : Fin 10 → ℝ) :
    efficiencyNet zeroEffWeights x = 2 := by
  simp [efficiencyNet, dense, zeroEffWeights, relu]

/-- C5: a scoring failure (a feature vector of the wrong length for the
declared input shape) is absorbed by each analyzer into its fixed
neutral default — efficiency score 0, behaviour category moderate with
confidence 0.5, route efficiency 50 — and scoring produces a value
(never an error) on every vector of the declared length. -/
theorem scoring_degrades_gracefully (wE : EfficiencyWeights) (wB : BehaviorWeights)
    (wR : RouteWeights) (tripData : TripData) (features : List ℝ) :
    (features.length ≠ 10 →
      analyzeEfficiencyFrom wE tripData features = ⟨0, [], 0⟩) ∧
    (features.length ≠ 8 →
      analyzeBehaviorFrom wB tripData features = ⟨"moderate", 0.5, []⟩) ∧
    (features.length ≠ 6 →
      analyzeRouteFrom wR tripData features = ⟨50, [], []⟩) ∧
    (features.length = 10 →
      ∃ y, predictModel 10 (efficiencyNet wE) features = Except.ok y) ∧
    (features.length = 8 →
      ∃ s, predictModel 8 (behaviorScores wB) features = Except.ok s) ∧
    (features.length = 6 →
      ∃ y, predictModel 6 (routeNet wR) features = Except.ok y) := by
  refine ⟨fun h => ?_, fun h => ?_, fun h => ?_, fun h => ?_, fun h => ?_, fun h => ?_⟩
  · unfold analyzeEfficiencyFrom predictModel
    rw [dif_neg h]
  · unfold analyzeBehaviorFrom predictModel
    rw [dif_neg h]
  · unfold analyzeRouteFrom predictModel
    rw [dif_neg h]
  · exact ⟨_, by unfold predictModel; rw [dif_pos h]⟩
  · exact ⟨_, by unfold predictModel; rw [dif_pos h]⟩
  · exact ⟨_, by unfold predictModel; rw [dif_pos h]⟩

/-- Witness for C5: the empty feature vector is malformed for all three
declared input shapes and every analyzer returns its neutral default. -/
theorem scoring_degrades_gracefully_witness :
    analyzeEfficiencyFrom zeroEffWeights exampleTrip [] = ⟨0, [], 0⟩ ∧
    analyzeBehaviorFrom zeroBehaviorWeights exampleTrip [] = ⟨"moderate", 0.5, []⟩ ∧
    analyzeRouteFrom zeroRouteWeights exampleTrip [] = ⟨50, [], []⟩ := by
  obtain ⟨h1, h2, h3, _, _, _⟩ :=
    scoring_degrades_gracefully zeroEffWeights zeroBehaviorWeights zeroRouteWeights
      exampleTrip []
  exact ⟨h1 (by simp), h2 (by simp), h3 (by simp)⟩

/-- Counterexample to C6: the efficiency model ends in a linear
activation, so nothing bounds its score — at an admissible parameter
setting (all kernels zero, output bias 2) the analyzer reports score 200
on a well-formed 10-dimensional feature vector. -/
theorem efficiency_score_unbounded_cex :
    (analyzeEfficiency zeroEffWeights exampleTrip).score = 200 ∧
    ¬((analyzeEfficiency zeroEffWeights exampleTrip).score ≤ 100) := by
  have hlen : (toRealFeatures (extractEfficiencyFeatures exampleTrip)).length = 10 := by
    simp [toRealFeatures, extractEfficiencyFeatures]
  have hscore : (analyzeEfficiency zeroEffWeights exampleTrip).score = 200 := by
    unfold analyzeEfficiency analyzeEfficiencyFrom predictModel
    rw [dif_pos hlen]
    dsimp only
    rw [efficiencyNet_zeroEffWeights]
    rw [show ((2 : ℝ) * 100) = ((200 : ℤ) : ℝ) by norm_num, round_intCast]
  exact ⟨hscore, by rw [hscore]; omega⟩

/-- C6 amended: for every weight setting and every feature vector — of
any length, since the malformed-vector defaults 50 and 0.5 also satisfy
the bounds — the route efficiency score lies in [0, 100] and the
behaviour confidence lies in [0, 1]; the efficiency score, produced by
an unclamped linear output, satisfies no such bound. -/
theorem scoring_bounds (wB : BehaviorWeights) (wR : RouteWeights)
    (tripData : TripData) (fB fR : List ℝ) :
    (0 ≤ (analyzeRouteFrom wR tripData fR).efficiency ∧
     (analyzeRouteFrom wR tripData fR).efficiency ≤ 100) ∧
    (0 ≤ (analyzeBehaviorFrom wB tripData fB).confidence ∧
     (analyzeBehaviorFrom wB tripData fB).confidence ≤ 1) := by
  constructor
  · unfold analyzeRouteFrom predictModel
    split_ifs with h
    · dsimp only
      exact round_mul_100_mem (routeNet_mem wR _).1 (routeNet_mem wR _).2
    · dsimp only
      norm_num
  · unfold analyzeBehaviorFrom predictModel
    split_ifs with h
    · dsimp only
      exact behaviorConfidence_mem wB _
    · dsimp only
      norm_num

/-- Witness for C10 at a concrete trip with non-negative counts. -/
theorem calculateEfficiencyImprovement_bounds_witness :
    (0 ≤ exampleTrip.drivingBehavior.harshAccelerations ∧
     0 ≤ exampleTrip.drivingBehavior.harshBraking ∧
     0 ≤ exampleTrip.drivingBehavior.idleTime) ∧
    0 ≤ calculateEfficiencyImprovement exampleTrip ∧
    calculateEfficiencyImprovement exampleTrip ≤ 30 :=
  ⟨⟨by norm_num [exampleTrip], by norm_num [exampleTrip], by norm_num [exampleTrip]⟩,
   calculateEfficiencyImprovement_bounds exampleTrip (by norm_num [exampleTrip])
     (by norm_num [exampleTrip]) (by norm_num [exampleTrip])⟩

end EcoPilot
